import Mathlib

/-!
# File manager (`index.js`): command dispatch and working-directory state

A shallow embedding of the interactive file manager.  The program registers six
`line` listeners on one readline interface; every input line is passed to all of
them in registration order.  Filesystem calls are asynchronous: a listener only
*issues* an operation (with the paths it computed at that moment), and the
callbacks run later, when the host delivers a reply.

The event loop is modelled as a step function on an explicit state.  Host
facilities (`path`, `os`, the filesystem) are inputs of the model: the `path`
functions and the OS strings are fields of `Env`, filesystem answers are
`Reply` values carried by events.  The host is not constrained: any reply may
reach any issued operation, at any time and more than once, so a statement
quantified over all event sequences covers every real execution.
-/

namespace FileManager

/-! ## JavaScript string helpers -/

/-- White space and line terminators removed by `String.prototype.trim`. -/
def isWhiteSpace (c : Char) : Bool :=
  let n := c.toNat
  n = 9 || n = 10 || n = 11 || n = 12 || n = 13 || n = 32 || n = 160 || n = 5760
    || (8192 ≤ n && n ≤ 8202) || n = 8232 || n = 8233 || n = 8239 || n = 8287
    || n = 12288 || n = 65279

/-- The characters of `s.trim()`. -/
def trimChars (cs : List Char) : List Char :=
  ((cs.dropWhile isWhiteSpace).reverse.dropWhile isWhiteSpace).reverse

/-- The method `s.trim()`. -/
def trim (s : String) : String := ⟨trimChars s.data⟩

/-- Pieces of a character list cut at every occurrence of `sep`
(never the empty list: an empty input gives one empty piece). -/
def splitChars (sep : Char) : List Char → List (List Char)
  | [] => [[]]
  | c :: cs =>
    if c = sep then [] :: splitChars sep cs
    else
      match splitChars sep cs with
      | [] => [[c]]
      | w :: ws => (c :: w) :: ws

/-- The method `s.split(sep)` for a one-character separator. -/
def split (sep : Char) (s : String) : List String :=
  (splitChars sep s.data).map String.mk

/-- The method `s.startsWith(p)`. -/
def startsWith (s p : String) : Bool := p.data.isPrefixOf s.data

/-- Truthiness of a possibly `undefined` string: defined and non-empty. -/
def truthy : Option String → Bool
  | some a => a ≠ ""
  | none => false

/-- UTF-16 code units of a character. -/
def codeUnits (c : Char) : List Nat :=
  if c.toNat < 65536 then [c.toNat]
  else [55296 + (c.toNat - 65536) / 1024, 56320 + (c.toNat - 65536) % 1024]

/-- UTF-16 code units of a string, the sequence JavaScript compares. -/
def utf16 (s : String) : List Nat := s.data.flatMap codeUnits

/-- Lexicographic comparison of code-unit sequences: `a` does not sort after `b`. -/
def unitsLe : List Nat → List Nat → Bool
  | [], _ => true
  | _ :: _, [] => false
  | x :: xs, y :: ys => x < y || (x = y && unitsLe xs ys)

/-- Order used by `Array.prototype.sort()` without a comparator. -/
def jsLe (a b : String) : Bool := unitsLe (utf16 a) (utf16 b)

/-- Insertion into a list sorted by `jsLe`, after all elements not greater. -/
def jsInsert (a : String) : List String → List String
  | [] => [a]
  | b :: bs => if jsLe b a then b :: jsInsert a bs else a :: b :: bs

/-- The method `xs.sort()` on an array of strings (stable, ascending code units). -/
def jsSort (xs : List String) : List String :=
  xs.foldr (fun a acc => jsInsert a acc) []

/-! ## Startup: the display name (lines 5–7) -/

/-- The constant `username`, from the whole `process.argv`. -/
def username (argv : List String) : String :=
  let args := argv.drop 2
  let usernameArg := args.find? (fun arg => startsWith arg "--username=")
  match usernameArg with
  | some a => if a ≠ "" then ((split '=' a)[1]?).getD "undefined" else "User"
  | none => "User"

/-! ## The `path` module (POSIX flavour) -/

/-- Backward scan of `path.posix.dirname`, from index `i` down to `1`:
the index of the slash that ends the parent, if any. -/
def dirnameScan (path : List Char) : Nat → Bool → Option Nat
  | 0, _ => none
  | i + 1, matchedSlash =>
    if path.getD (i + 1) ' ' = '/' then
      if !matchedSlash then some (i + 1) else dirnameScan path i matchedSlash
    else dirnameScan path i false

/-- The function `path.posix.dirname`. -/
def posixDirname (path : String) : String :=
  let cs := path.data
  if cs.length = 0 then "."
  else
    let hasRoot : Bool := cs.head? = some '/'
    match dirnameScan cs (cs.length - 1) true with
    | none => if hasRoot then "/" else "."
    | some e => if hasRoot && e = 1 then "//" else ⟨cs.take e⟩

/-- Collapse of `.` and `..` segments and of empty segments, below the root. -/
def normalizeSegments : List String → List String → List String
  | acc, [] => acc.reverse
  | acc, seg :: rest =>
    if seg = "" ∨ seg = "." then normalizeSegments acc rest
    else if seg = ".." then normalizeSegments acc.tail rest
    else normalizeSegments (seg :: acc) rest

/-- The function `path.posix.resolve(base, input)` for an absolute `base`. -/
def posixResolve (base input : String) : String :=
  let joined := if startsWith input "/" then input else base ++ "/" ++ input
  "/" ++ "/".intercalate (normalizeSegments [] (split '/' joined))

/-! ## Program state -/

/-- What the program writes to the terminal. -/
inductive Out
  | log (s : String)
  | prompt
  deriving DecidableEq, Repr

/-- The three streams of a `read.pipe(transform).pipe(write)` pipeline. -/
inductive Stage
  | readStream
  | transform
  | writeStream
  deriving DecidableEq, Repr

/-- An asynchronous operation as issued: the absolute paths handed to the host,
and the raw arguments kept by the callbacks for their messages. -/
inductive Op
  | stat (newPath : String)
  | readdir (dir : String)
  | copy (srcPath destPath src dest : String)
  | move (srcPath destPath src dest : String)
  | unlink (filePath file : String)
  | rename (oldPath newPath oldName newName : String)
  | compress (srcPath destPath src dest : String)
  | decompress (srcPath destPath src dest : String)
  | hash (filePath file : String)
  deriving DecidableEq, Repr

/-- Kind of a directory entry, as seen by `isDirectory()` and `isFile()`. -/
inductive Kind
  | directory
  | file
  | other
  deriving DecidableEq, Repr

/-- A `fs.Dirent`. -/
structure Dirent where
  name : String
  kind : Kind
  deriving DecidableEq, Repr

/-- What the host hands back for an issued operation. -/
inductive Reply
  | stat (stats : Option Bool)
  | readdir (files : Option (List Dirent))
  | done (err : Bool)
  | error (stage : Stage)
  | finish
  | readEnd (digest : String)
  deriving DecidableEq, Repr

/-- Host facilities the program reads. -/
structure Env where
  username : String
  dirname : String → String
  resolve : String → String → String
  arch : String
  totalMemMB : String
  freeMemMB : String
  userInfo : String

/-- State of the running process. `exited = some c`: the process has ended with
status `c`.  `issued` records every asynchronous operation started so far. -/
structure State where
  currentDir : String
  exited : Option Nat
  out : List Out
  issued : List Op
  deriving DecidableEq, Repr

/-! ## Primitive effects

Nothing runs after the process has exited, so every effect is the identity on an
exited state. -/

/-- The call `console.log(msg)`. -/
def log (msg : String) (s : State) : State :=
  if s.exited.isSome then s else { s with out := s.out ++ [Out.log msg] }

/-- The call `rl.prompt()`. -/
def prompt (s : State) : State :=
  if s.exited.isSome then s else { s with out := s.out ++ [Out.prompt] }

/-- Assignment to `currentDir`. -/
def setDir (dir : String) (s : State) : State :=
  if s.exited.isSome then s else { s with currentDir := dir }

/-- Start of an asynchronous host operation. -/
def issue (op : Op) (s : State) : State :=
  if s.exited.isSome then s else { s with issued := s.issued ++ [op] }

/-- The call `process.exit(code)`. -/
def processExit (code : Nat) (s : State) : State :=
  if s.exited.isSome then s else { s with exited := some code }

/-- An exception nobody catches: the process ends with status 1. -/
def uncaught (s : State) : State := processExit 1 s

/-! ## The program -/

/-- Text logged by the `close` listener (line 47). -/
def closeMessage (env : Env) : String :=
  "Thank you for using File Manager, " ++ env.username ++ ", goodbye!"

/-- Text logged by the `SIGINT` listener (line 15). -/
def sigintMessage (env : Env) : String :=
  "\nThank you for using File Manager, " ++ env.username ++ ", goodbye!"

/-- The function `printCurrentDirectory`. -/
def printCurrentDirectory (s : State) : State :=
  log ("You are currently in " ++ s.currentDir) s

/-- The `close` listener of the readline interface (lines 46–49). -/
def onClose (env : Env) (s : State) : State :=
  processExit 0 (log (closeMessage env) s)

/-- The `SIGINT` listener of the process (lines 14–17); `process.exit()` without
an argument ends with status 0, as `process.exitCode` is never set. -/
def onSigint (env : Env) (s : State) : State :=
  processExit 0 (log (sigintMessage env) s)

/-- The call `rl.close()`: emits `close`, whose listener runs at once. -/
def rlClose (env : Env) (s : State) : State := onClose env s

/-- The function `goUp`. -/
def goUp (env : Env) (s : State) : State :=
  let parentDir := env.dirname s.currentDir
  printCurrentDirectory (if parentDir ≠ s.currentDir then setDir parentDir s else s)

/-- The function `changeDirectory`, up to the call of `fs.stat`. -/
def changeDirectory (env : Env) (dir : String) (s : State) : State :=
  issue (Op.stat (env.resolve s.currentDir dir)) s

/-- The function `listDirectory`, up to the call of `fs.readdir`. -/
def listDirectory (s : State) : State :=
  issue (Op.readdir s.currentDir) s

/-- The function `copyFile`: both streams are created at once. -/
def copyFile (env : Env) (src dest : String) (s : State) : State :=
  issue (Op.copy (env.resolve s.currentDir src) (env.resolve s.currentDir dest) src dest) s

/-- The function `moveFile`, up to the call of `fs.rename`. -/
def moveFile (env : Env) (src dest : String) (s : State) : State :=
  issue (Op.move (env.resolve s.currentDir src) (env.resolve s.currentDir dest) src dest) s

/-- The function `removeFile`, up to the call of `fs.unlink`. -/
def removeFile (env : Env) (file : String) (s : State) : State :=
  issue (Op.unlink (env.resolve s.currentDir file) file) s

/-- The function `renameFile`, up to the call of `fs.rename`. -/
def renameFile (env : Env) (oldName newName : String) (s : State) : State :=
  issue (Op.rename (env.resolve s.currentDir oldName) (env.resolve s.currentDir newName)
    oldName newName) s

/-- The function `compressFile`: the three streams are created at once. -/
def compressFile (env : Env) (src dest : String) (s : State) : State :=
  issue (Op.compress (env.resolve s.currentDir src) (env.resolve s.currentDir dest) src dest) s

/-- The function `decompressFile`: the three streams are created at once. -/
def decompressFile (env : Env) (src dest : String) (s : State) : State :=
  issue (Op.decompress (env.resolve s.currentDir src) (env.resolve s.currentDir dest) src dest) s

/-- The function `calculateHash`: the read stream is created at once. -/
def calculateHash (env : Env) (file : String) (s : State) : State :=
  issue (Op.hash (env.resolve s.currentDir file) file) s

/-- The function `getOSInfo`. -/
def getOSInfo (env : Env) (s : State) : State :=
  log ("User Info: " ++ env.userInfo)
    (log ("Free Memory: " ++ env.freeMemMB ++ " MB")
      (log ("Total Memory: " ++ env.totalMemMB ++ " MB")
        (log ("Architecture: " ++ env.arch)
          (log "Operating System Info:" s))))

/-- First `line` listener (lines 33–45). -/
def lineHandler1 (env : Env) (line : String) (s : State) : State :=
  let input := trim line
  prompt
    (if input = "up" then goUp env s
     else if input = ".exit" then rlClose env s
     else log "Invalid input" s)

/-- Second `line` listener (lines 86–112). -/
def lineHandler2 (env : Env) (line : String) (s : State) : State :=
  let input := split ' ' (trim line)
  let command := input[0]?
  let argument := input[1]?
  prompt
    (if command = some "cd" then
       (if truthy argument then changeDirectory env (argument.getD "") s
        else log "Invalid input" s)
     else if command = some "ls" then listDirectory s
     else if command = some "up" then goUp env s
     else if command = some ".exit" then rlClose env s
     else log "Invalid input" s)

/-- Third `line` listener (lines 170–209). -/
def lineHandler3 (env : Env) (line : String) (s : State) : State :=
  let input := split ' ' (trim line)
  let command := input[0]?
  let arg1 := input[1]?
  let arg2 := input[2]?
  prompt
    (if command = some "copy" then
       (if truthy arg1 && truthy arg2 then copyFile env (arg1.getD "") (arg2.getD "") s
        else log "Invalid input" s)
     else if command = some "move" then
       (if truthy arg1 && truthy arg2 then moveFile env (arg1.getD "") (arg2.getD "") s
        else log "Invalid input" s)
     else if command = some "rm" then
       (if truthy arg1 then removeFile env (arg1.getD "") s
        else log "Invalid input" s)
     else if command = some "rn" then
       (if truthy arg1 && truthy arg2 then renameFile env (arg1.getD "") (arg2.getD "") s
        else log "Invalid input" s)
     else log "Invalid input" s)

/-- Fourth `line` listener (lines 219–231). -/
def lineHandler4 (env : Env) (line : String) (s : State) : State :=
  let input := trim line
  prompt
    (if input = "os-info" then getOSInfo env s
     else log "Invalid input" s)

/-- Fifth `line` listener (lines 269–294). -/
def lineHandler5 (env : Env) (line : String) (s : State) : State :=
  let input := split ' ' (trim line)
  let command := input[0]?
  let arg1 := input[1]?
  let arg2 := input[2]?
  prompt
    (if command = some "compress" then
       (if truthy arg1 && truthy arg2 then compressFile env (arg1.getD "") (arg2.getD "") s
        else log "Invalid input" s)
     else if command = some "decompress" then
       (if truthy arg1 && truthy arg2 then decompressFile env (arg1.getD "") (arg2.getD "") s
        else log "Invalid input" s)
     else log "Invalid input" s)

/-- Sixth `line` listener (lines 313–330). -/
def lineHandler6 (env : Env) (line : String) (s : State) : State :=
  let input := split ' ' (trim line)
  let command := input[0]?
  let arg1 := input[1]?
  prompt
    (if command = some "hash" then
       (if truthy arg1 then calculateHash env (arg1.getD "") s
        else log "Invalid input" s)
     else log "Invalid input" s)

/-- Emission of `line`: the six listeners run in registration order. -/
def handleLine (env : Env) (line : String) (s : State) : State :=
  lineHandler6 env line
    (lineHandler5 env line
      (lineHandler4 env line
        (lineHandler3 env line
          (lineHandler2 env line
            (lineHandler1 env line s)))))

/-! ## Callbacks of the asynchronous operations -/

/-- Names printed by the `fs.readdir` callback (lines 79–82). -/
def listing (files : List Dirent) : List String :=
  let dirs := (files.filter (fun f => f.kind = Kind.directory)).map (fun f => f.name)
  let regularFiles := (files.filter (fun f => f.kind = Kind.file)).map (fun f => f.name)
  jsSort (dirs ++ regularFiles)

/-- One `console.log` per element, in order (`forEach`). -/
def logAll (msgs : List String) (s : State) : State :=
  msgs.foldl (fun acc m => log m acc) s

/-- Messages of the `error` listeners registered on each stream of an operation
(lines 123–124, 243–244, 260–261, 303); empty where no listener is registered. -/
def errorListeners : Op → Stage → List String
  | Op.copy _ _ _ _, Stage.readStream => ["Operation failed"]
  | Op.copy _ _ _ _, Stage.writeStream => ["Operation failed"]
  | Op.compress _ _ _ _, Stage.readStream => ["Operation failed"]
  | Op.compress _ _ _ _, Stage.writeStream => ["Operation failed"]
  | Op.decompress _ _ _ _, Stage.readStream => ["Operation failed"]
  | Op.decompress _ _ _ _, Stage.writeStream => ["Operation failed"]
  | Op.hash _ _, Stage.readStream => ["Operation failed"]
  | _, _ => []

/-- Whether the operation has a stream at this stage that can emit `error`. -/
def hasStage : Op → Stage → Bool
  | Op.copy _ _ _ _, Stage.readStream => true
  | Op.copy _ _ _ _, Stage.writeStream => true
  | Op.compress _ _ _ _, _ => true
  | Op.decompress _ _ _ _, _ => true
  | Op.hash _ _, Stage.readStream => true
  | _, _ => false

/-- Emission of `error` on a stream: its listeners run; with no listener the
error is thrown and nothing catches it. -/
def emitError (listeners : List String) (s : State) : State :=
  match listeners with
  | [] => uncaught s
  | l :: ls => logAll (l :: ls) s

/-- The host answers operation `op` with `r`: the matching callback runs.
A reply of a kind the operation never receives is ignored. -/
def deliver (op : Op) (r : Reply) (s : State) : State :=
  match op, r with
  | Op.stat newPath, Reply.stat stats =>
    if stats = none ∨ stats = some false then log "Operation failed" s
    else printCurrentDirectory (setDir newPath s)
  | Op.readdir _, Reply.readdir none => log "Operation failed" s
  | Op.readdir _, Reply.readdir (some files) => logAll (listing files) s
  | Op.move _ _ src dest, Reply.done err =>
    if err then log "Operation failed" s
    else log ("File moved from " ++ src ++ " to " ++ dest) s
  | Op.unlink _ file, Reply.done err =>
    if err then log "Operation failed" s
    else log ("File " ++ file ++ " deleted") s
  | Op.rename _ _ oldName newName, Reply.done err =>
    if err then log "Operation failed" s
    else log ("File renamed from " ++ oldName ++ " to " ++ newName) s
  | Op.copy _ _ src dest, Reply.finish =>
    log ("File copied from " ++ src ++ " to " ++ dest) s
  | Op.compress _ _ src dest, Reply.finish =>
    log ("File " ++ src ++ " compressed to " ++ dest) s
  | Op.decompress _ _ src dest, Reply.finish =>
    log ("File " ++ src ++ " decompressed to " ++ dest) s
  | Op.hash _ file, Reply.readEnd digest =>
    log ("SHA-256 hash of " ++ file ++ ": " ++ digest) s
  | op, Reply.error stage =>
    if hasStage op stage then emitError (errorListeners op stage) s else s
  | _, _ => s

/-! ## The event loop -/

/-- What can happen to the process. -/
inductive Event
  | line (l : String)
  | close
  | sigint
  | reply (i : Nat) (r : Reply)
  deriving DecidableEq, Repr

/-- One turn of the event loop. `reply i r` answers the `i`-th issued operation. -/
def step (env : Env) (s : State) : Event → State
  | Event.line l => handleLine env l s
  | Event.close => onClose env s
  | Event.sigint => onSigint env s
  | Event.reply i r =>
    match s.issued[i]? with
    | some op => deliver op r s
    | none => s

/-- A sequence of turns. -/
def run (env : Env) (s : State) (evs : List Event) : State :=
  evs.foldl (step env) s

/-- A POSIX host with the given display name. -/
def posixEnv (name : String) : Env :=
  { username := name, dirname := posixDirname, resolve := posixResolve,
    arch := "x64", totalMemMB := "16384.00", freeMemMB := "8192.00",
    userInfo := "\x7b\x7d" }

/-- The process right after startup in directory `dir`, before any output. -/
def start (dir : String) : State :=
  { currentDir := dir, exited := none, out := [], issued := [] }

/-- Number of times `Invalid input` was logged. -/
def invalidCount (out : List Out) : Nat :=
  out.count (Out.log "Invalid input")

/-! ## Summaries used in the statements -/

/-- Directory left by one run of `goUp` started in `d`. -/
def parentOrSelf (env : Env) (d : String) : String :=
  if env.dirname d ≠ d then env.dirname d else d

/-- Operations a line should start, as one flat table on its tokens: each path
argument resolved against the directory `d`. -/
def startedOps (env : Env) (d : String) (toks : List String) : List Op :=
  let c := toks[0]?
  let a := toks[1]?
  let b := toks[2]?
  if c = some "cd" then (if truthy a then [Op.stat (env.resolve d (a.getD ""))] else [])
  else if c = some "ls" then [Op.readdir d]
  else if c = some "copy" then
    (if truthy a && truthy b then
      [Op.copy (env.resolve d (a.getD "")) (env.resolve d (b.getD "")) (a.getD "") (b.getD "")]
     else [])
  else if c = some "move" then
    (if truthy a && truthy b then
      [Op.move (env.resolve d (a.getD "")) (env.resolve d (b.getD "")) (a.getD "") (b.getD "")]
     else [])
  else if c = some "rm" then
    (if truthy a then [Op.unlink (env.resolve d (a.getD "")) (a.getD "")] else [])
  else if c = some "rn" then
    (if truthy a && truthy b then
      [Op.rename (env.resolve d (a.getD "")) (env.resolve d (b.getD "")) (a.getD "") (b.getD "")]
     else [])
  else if c = some "compress" then
    (if truthy a && truthy b then
      [Op.compress (env.resolve d (a.getD "")) (env.resolve d (b.getD "")) (a.getD "") (b.getD "")]
     else [])
  else if c = some "decompress" then
    (if truthy a && truthy b then
      [Op.decompress (env.resolve d (a.getD "")) (env.resolve d (b.getD "")) (a.getD "")
        (b.getD "")]
     else [])
  else if c = some "hash" then
    (if truthy a then [Op.hash (env.resolve d (a.getD "")) (a.getD "")] else [])
  else []

/-- Output written between an earlier state `s` and a later state `t`. -/
def printed (s t : State) : List Out := t.out.drop s.out.length

/-- Operations issued between an earlier state `s` and a later state `t`. -/
def started (s t : State) : List Op := t.issued.drop s.issued.length

/-! ## Evaluation of the primitives and of each listener -/

theorem split_up : split ' ' "up" = ["up"] := by decide

theorem split_dotExit : split ' ' ".exit" = [".exit"] := by decide

theorem split_osInfo : split ' ' "os-info" = ["os-info"] := by decide

theorem log_alive (m : String) (d : String) (o : List Out) (i : List Op) :
    log m ⟨d, none, o, i⟩ = ⟨d, none, o ++ [Out.log m], i⟩ := by
  simp [log]

theorem prompt_alive (d : String) (o : List Out) (i : List Op) :
    prompt ⟨d, none, o, i⟩ = ⟨d, none, o ++ [Out.prompt], i⟩ := by
  simp [prompt]

theorem prompt_dead (d : String) (c : Nat) (o : List Out) (i : List Op) :
    prompt ⟨d, some c, o, i⟩ = ⟨d, some c, o, i⟩ := by
  simp [prompt]

theorem issue_alive (op : Op) (d : String) (o : List Out) (i : List Op) :
    issue op ⟨d, none, o, i⟩ = ⟨d, none, o, i ++ [op]⟩ := by
  simp [issue]

theorem goUp_alive (env : Env) (d : String) (o : List Out) (i : List Op) :
    goUp env ⟨d, none, o, i⟩
      = ⟨parentOrSelf env d, none,
          o ++ [Out.log ("You are currently in " ++ parentOrSelf env d)], i⟩ := by
  by_cases h : env.dirname d = d <;>
    simp [goUp, parentOrSelf, h, printCurrentDirectory, setDir, log]

theorem onClose_alive (env : Env) (d : String) (o : List Out) (i : List Op) :
    onClose env ⟨d, none, o, i⟩ = ⟨d, some 0, o ++ [Out.log (closeMessage env)], i⟩ := by
  simp [onClose, log, processExit]

theorem onSigint_alive (env : Env) (d : String) (o : List Out) (i : List Op) :
    onSigint env ⟨d, none, o, i⟩ = ⟨d, some 0, o ++ [Out.log (sigintMessage env)], i⟩ := by
  simp [onSigint, log, processExit]

@[simp]
theorem lineHandler1_alive (env : Env) (line : String) (d : String) (o : List Out)
    (i : List Op) :
    lineHandler1 env line ⟨d, none, o, i⟩ =
      if trim line = "up" then
        ⟨parentOrSelf env d, none,
          o ++ [Out.log ("You are currently in " ++ parentOrSelf env d), Out.prompt], i⟩
      else if trim line = ".exit" then ⟨d, some 0, o ++ [Out.log (closeMessage env)], i⟩
      else ⟨d, none, o ++ [Out.log "Invalid input", Out.prompt], i⟩ := by
  simp only [lineHandler1, rlClose]
  split_ifs <;> simp [goUp_alive, onClose_alive, log_alive, prompt_alive, prompt_dead]

@[simp]
theorem lineHandler2_alive (env : Env) (line : String) (d : String) (o : List Out)
    (i : List Op) :
    lineHandler2 env line ⟨d, none, o, i⟩ =
      if (split ' ' (trim line))[0]? = some "cd" then
        (if truthy (split ' ' (trim line))[1]? then
          ⟨d, none, o ++ [Out.prompt],
            i ++ [Op.stat (env.resolve d ((split ' ' (trim line))[1]?.getD ""))]⟩
         else ⟨d, none, o ++ [Out.log "Invalid input", Out.prompt], i⟩)
      else if (split ' ' (trim line))[0]? = some "ls" then
        ⟨d, none, o ++ [Out.prompt], i ++ [Op.readdir d]⟩
      else if (split ' ' (trim line))[0]? = some "up" then
        ⟨parentOrSelf env d, none,
          o ++ [Out.log ("You are currently in " ++ parentOrSelf env d), Out.prompt], i⟩
      else if (split ' ' (trim line))[0]? = some ".exit" then
        ⟨d, some 0, o ++ [Out.log (closeMessage env)], i⟩
      else ⟨d, none, o ++ [Out.log "Invalid input", Out.prompt], i⟩ := by
  simp only [lineHandler2, rlClose]
  split_ifs <;>
    simp [goUp_alive, onClose_alive, log_alive, prompt_alive, prompt_dead, changeDirectory,
      listDirectory, issue_alive]

@[simp]
theorem lineHandler3_alive (env : Env) (line : String) (d : String) (o : List Out)
    (i : List Op) :
    lineHandler3 env line ⟨d, none, o, i⟩ =
      if (split ' ' (trim line))[0]? = some "copy" then
        (if truthy (split ' ' (trim line))[1]? && truthy (split ' ' (trim line))[2]? then
          ⟨d, none, o ++ [Out.prompt],
            i ++ [Op.copy (env.resolve d ((split ' ' (trim line))[1]?.getD ""))
              (env.resolve d ((split ' ' (trim line))[2]?.getD ""))
              ((split ' ' (trim line))[1]?.getD "") ((split ' ' (trim line))[2]?.getD "")]⟩
         else ⟨d, none, o ++ [Out.log "Invalid input", Out.prompt], i⟩)
      else if (split ' ' (trim line))[0]? = some "move" then
        (if truthy (split ' ' (trim line))[1]? && truthy (split ' ' (trim line))[2]? then
          ⟨d, none, o ++ [Out.prompt],
            i ++ [Op.move (env.resolve d ((split ' ' (trim line))[1]?.getD ""))
              (env.resolve d ((split ' ' (trim line))[2]?.getD ""))
              ((split ' ' (trim line))[1]?.getD "") ((split ' ' (trim line))[2]?.getD "")]⟩
         else ⟨d, none, o ++ [Out.log "Invalid input", Out.prompt], i⟩)
      else if (split ' ' (trim line))[0]? = some "rm" then
        (if truthy (split ' ' (trim line))[1]? then
          ⟨d, none, o ++ [Out.prompt],
            i ++ [Op.unlink (env.resolve d ((split ' ' (trim line))[1]?.getD ""))
              ((split ' ' (trim line))[1]?.getD "")]⟩
         else ⟨d, none, o ++ [Out.log "Invalid input", Out.prompt], i⟩)
      else if (split ' ' (trim line))[0]? = some "rn" then
        (if truthy (split ' ' (trim line))[1]? && truthy (split ' ' (trim line))[2]? then
          ⟨d, none, o ++ [Out.prompt],
            i ++ [Op.rename (env.resolve d ((split ' ' (trim line))[1]?.getD ""))
              (env.resolve d ((split ' ' (trim line))[2]?.getD ""))
              ((split ' ' (trim line))[1]?.getD "") ((split ' ' (trim line))[2]?.getD "")]⟩
         else ⟨d, none, o ++ [Out.log "Invalid input", Out.prompt], i⟩)
      else ⟨d, none, o ++ [Out.log "Invalid input", Out.prompt], i⟩ := by
  simp only [lineHandler3]
  split_ifs <;>
    simp [log_alive, prompt_alive, copyFile, moveFile, removeFile, renameFile, issue_alive]

theorem getOSInfo_alive (env : Env) (d : String) (o : List Out) (i : List Op) :
    getOSInfo env ⟨d, none, o, i⟩ =
      ⟨d, none,
        o ++ [Out.log "Operating System Info:", Out.log ("Architecture: " ++ env.arch),
          Out.log ("Total Memory: " ++ env.totalMemMB ++ " MB"),
          Out.log ("Free Memory: " ++ env.freeMemMB ++ " MB"),
          Out.log ("User Info: " ++ env.userInfo)], i⟩ := by
  simp [getOSInfo, log_alive]

@[simp]
theorem lineHandler4_alive (env : Env) (line : String) (d : String) (o : List Out)
    (i : List Op) :
    lineHandler4 env line ⟨d, none, o, i⟩ =
      if trim line = "os-info" then
        ⟨d, none,
          o ++ [Out.log "Operating System Info:", Out.log ("Architecture: " ++ env.arch),
            Out.log ("Total Memory: " ++ env.totalMemMB ++ " MB"),
            Out.log ("Free Memory: " ++ env.freeMemMB ++ " MB"),
            Out.log ("User Info: " ++ env.userInfo), Out.prompt], i⟩
      else ⟨d, none, o ++ [Out.log "Invalid input", Out.prompt], i⟩ := by
  simp only [lineHandler4]
  split_ifs <;> simp [getOSInfo_alive, log_alive, prompt_alive]

@[simp]
theorem lineHandler5_alive (env : Env) (line : String) (d : String) (o : List Out)
    (i : List Op) :
    lineHandler5 env line ⟨d, none, o, i⟩ =
      if (split ' ' (trim line))[0]? = some "compress" then
        (if truthy (split ' ' (trim line))[1]? && truthy (split ' ' (trim line))[2]? then
          ⟨d, none, o ++ [Out.prompt],
            i ++ [Op.compress (env.resolve d ((split ' ' (trim line))[1]?.getD ""))
              (env.resolve d ((split ' ' (trim line))[2]?.getD ""))
              ((split ' ' (trim line))[1]?.getD "") ((split ' ' (trim line))[2]?.getD "")]⟩
         else ⟨d, none, o ++ [Out.log "Invalid input", Out.prompt], i⟩)
      else if (split ' ' (trim line))[0]? = some "decompress" then
        (if truthy (split ' ' (trim line))[1]? && truthy (split ' ' (trim line))[2]? then
          ⟨d, none, o ++ [Out.prompt],
            i ++ [Op.decompress (env.resolve d ((split ' ' (trim line))[1]?.getD ""))
              (env.resolve d ((split ' ' (trim line))[2]?.getD ""))
              ((split ' ' (trim line))[1]?.getD "") ((split ' ' (trim line))[2]?.getD "")]⟩
         else ⟨d, none, o ++ [Out.log "Invalid input", Out.prompt], i⟩)
      else ⟨d, none, o ++ [Out.log "Invalid input", Out.prompt], i⟩ := by
  simp only [lineHandler5]
  split_ifs <;>
    simp [log_alive, prompt_alive, compressFile, decompressFile, issue_alive]

@[simp]
theorem lineHandler6_alive (env : Env) (line : String) (d : String) (o : List Out)
    (i : List Op) :
    lineHandler6 env line ⟨d, none, o, i⟩ =
      if (split ' ' (trim line))[0]? = some "hash" then
        (if truthy (split ' ' (trim line))[1]? then
          ⟨d, none, o ++ [Out.prompt],
            i ++ [Op.hash (env.resolve d ((split ' ' (trim line))[1]?.getD ""))
              ((split ' ' (trim line))[1]?.getD "")]⟩
         else ⟨d, none, o ++ [Out.log "Invalid input", Out.prompt], i⟩)
      else ⟨d, none, o ++ [Out.log "Invalid input", Out.prompt], i⟩ := by
  simp only [lineHandler6]
  split_ifs <;> simp [log_alive, prompt_alive, calculateHash, issue_alive]

@[simp]
theorem lineHandler1_dead (env : Env) (line : String) (d : String) (c : Nat) (o : List Out)
    (i : List Op) : lineHandler1 env line ⟨d, some c, o, i⟩ = ⟨d, some c, o, i⟩ := by
  simp only [lineHandler1]
  split_ifs <;>
    simp [goUp, printCurrentDirectory, setDir, rlClose, onClose, log, prompt, processExit]

@[simp]
theorem lineHandler2_dead (env : Env) (line : String) (d : String) (c : Nat) (o : List Out)
    (i : List Op) : lineHandler2 env line ⟨d, some c, o, i⟩ = ⟨d, some c, o, i⟩ := by
  simp only [lineHandler2]
  split_ifs <;>
    simp [goUp, printCurrentDirectory, setDir, rlClose, onClose, log, prompt, processExit,
      changeDirectory, listDirectory, issue]

@[simp]
theorem lineHandler3_dead (env : Env) (line : String) (d : String) (c : Nat) (o : List Out)
    (i : List Op) : lineHandler3 env line ⟨d, some c, o, i⟩ = ⟨d, some c, o, i⟩ := by
  simp only [lineHandler3]
  split_ifs <;> simp [log, prompt, copyFile, moveFile, removeFile, renameFile, issue]

@[simp]
theorem lineHandler4_dead (env : Env) (line : String) (d : String) (c : Nat) (o : List Out)
    (i : List Op) : lineHandler4 env line ⟨d, some c, o, i⟩ = ⟨d, some c, o, i⟩ := by
  simp only [lineHandler4]
  split_ifs <;> simp [getOSInfo, log, prompt]

@[simp]
theorem lineHandler5_dead (env : Env) (line : String) (d : String) (c : Nat) (o : List Out)
    (i : List Op) : lineHandler5 env line ⟨d, some c, o, i⟩ = ⟨d, some c, o, i⟩ := by
  simp only [lineHandler5]
  split_ifs <;> simp [log, prompt, compressFile, decompressFile, issue]

@[simp]
theorem lineHandler6_dead (env : Env) (line : String) (d : String) (c : Nat) (o : List Out)
    (i : List Op) : lineHandler6 env line ⟨d, some c, o, i⟩ = ⟨d, some c, o, i⟩ := by
  simp only [lineHandler6]
  split_ifs <;> simp [log, prompt, calculateHash, issue]

/-- A line leaves an exited process untouched. -/
theorem handleLine_dead (env : Env) (line : String) (d : String) (c : Nat) (o : List Out)
    (i : List Op) :
    handleLine env line ⟨d, some c, o, i⟩ = ⟨d, some c, o, i⟩ := by
  simp only [handleLine, lineHandler1_dead, lineHandler2_dead, lineHandler3_dead,
    lineHandler4_dead, lineHandler5_dead, lineHandler6_dead]

theorem command_cases (c : Option String) :
    c = some "cd" ∨ c = some "ls" ∨ c = some "up" ∨ c = some ".exit" ∨ c = some "copy" ∨
    c = some "move" ∨ c = some "rm" ∨ c = some "rn" ∨ c = some "compress" ∨
    c = some "decompress" ∨ c = some "hash" ∨
    (c ≠ some "cd" ∧ c ≠ some "ls" ∧ c ≠ some "up" ∧ c ≠ some ".exit" ∧ c ≠ some "copy" ∧
      c ≠ some "move" ∧ c ≠ some "rm" ∧ c ≠ some "rn" ∧ c ≠ some "compress" ∧
      c ≠ some "decompress" ∧ c ≠ some "hash") := by
  tauto

theorem closeMessage_ne_invalid (env : Env) : closeMessage env ≠ "Invalid input" := by
  intro h
  have h2 := congrArg String.data h
  simp [closeMessage, String.data_append] at h2

theorem sigintMessage_ne_invalid (env : Env) : sigintMessage env ≠ "Invalid input" := by
  intro h
  have h2 := congrArg String.data h
  simp [sigintMessage, String.data_append] at h2

theorem printed_append (d d' : String) (e e' : Option Nat) (o x : List Out) (i i' : List Op) :
    printed ⟨d, e, o, i⟩ ⟨d', e', o ++ x, i'⟩ = x := by
  simp [printed]

theorem handleLine_issued (env : Env) (line : String) (s : State) (h : s.exited = none) :
    (handleLine env line s).issued
      = s.issued ++ startedOps env s.currentDir (split ' ' (trim line)) := by
  obtain ⟨d, ex, o, i⟩ := s
  simp only at h; subst h
  simp only [handleLine, startedOps]
  by_cases h1 : trim line = "up"
  · simp [h1, split_up]
  by_cases h2 : trim line = ".exit"
  · simp [h2, split_dotExit]
  by_cases h3 : trim line = "os-info"
  · simp [h3, split_osInfo]
  rcases command_cases (split ' ' (trim line))[0]? with
    c | c | c | c | c | c | c | c | c | c | c | c <;>
  simp [h1, h2, h3, c] <;> split_ifs <;> simp [h1, h2, h3, c]

theorem handleLine_exited (env : Env) (line : String) (s : State) (h : s.exited = none) :
    (handleLine env line s).exited
      = if (split ' ' (trim line))[0]? = some ".exit" then some 0 else none := by
  obtain ⟨d, ex, o, i⟩ := s
  simp only at h; subst h
  simp only [handleLine]
  by_cases h1 : trim line = "up"
  · simp [h1, split_up]
  by_cases h2 : trim line = ".exit"
  · simp [h2, split_dotExit]
  by_cases h3 : trim line = "os-info"
  · simp [h3, split_osInfo]
  rcases command_cases (split ' ' (trim line))[0]? with
    c | c | c | c | c | c | c | c | c | c | c | c <;>
  simp [h1, h2, h3, c] <;> split_ifs <;> simp [h1, h2, h3, c]

theorem handleLine_currentDir (env : Env) (line : String) (s : State)
    (hup : (split ' ' (trim line))[0]? ≠ some "up") :
    (handleLine env line s).currentDir = s.currentDir := by
  obtain ⟨d, ex, o, i⟩ := s
  cases ex with
  | some c => rw [handleLine_dead]
  | none =>
    simp only [handleLine]
    by_cases h1 : trim line = "up"
    · rw [h1, split_up] at hup
      exact absurd rfl hup
    by_cases h2 : trim line = ".exit"
    · simp [h2, split_dotExit]
    by_cases h3 : trim line = "os-info"
    · simp [h3, split_osInfo]
    rcases command_cases (split ' ' (trim line))[0]? with
      c | c | c | c | c | c | c | c | c | c | c | c <;>
    first
      | exact absurd c hup
      | (simp [h1, h2, h3, c] <;> split_ifs <;> simp [h1, h2, h3, c])

theorem handleLine_printed_exit (env : Env) (line : String) (s : State) (h : s.exited = none)
    (hc : (split ' ' (trim line))[0]? = some ".exit") :
    printed s (handleLine env line s)
      = (if trim line = ".exit" then [] else [Out.log "Invalid input", Out.prompt])
          ++ [Out.log (closeMessage env)] := by
  obtain ⟨d, ex, o, i⟩ := s
  simp only at h; subst h
  simp only [handleLine]
  by_cases h1 : trim line = "up"
  · rw [h1, split_up] at hc
    exact absurd hc (by decide)
  by_cases h2 : trim line = ".exit"
  · simp [h2, split_dotExit, printed_append]
  simp [h1, h2, hc, printed_append]

theorem log_fields (m : String) (s : State) :
    (log m s).currentDir = s.currentDir ∧ (log m s).issued = s.issued
      ∧ (log m s).exited = s.exited := by
  unfold log
  split_ifs <;> simp

theorem logAll_fields (ms : List String) (s : State) :
    (logAll ms s).currentDir = s.currentDir ∧ (logAll ms s).issued = s.issued
      ∧ (logAll ms s).exited = s.exited := by
  induction ms generalizing s with
  | nil => simp [logAll]
  | cons m ms ih =>
    have h := ih (log m s)
    have h2 := log_fields m s
    simp only [logAll, List.foldl_cons] at h ⊢
    exact ⟨h.1.trans h2.1, h.2.1.trans h2.2.1, h.2.2.trans h2.2.2⟩

theorem processExit_fields (c : Nat) (s : State) :
    (processExit c s).currentDir = s.currentDir ∧ (processExit c s).issued = s.issued := by
  unfold processExit
  split_ifs <;> simp

theorem setDir_issued (p : String) (s : State) : (setDir p s).issued = s.issued := by
  unfold setDir
  split_ifs <;> simp

theorem emitError_fields (ls : List String) (s : State) :
    (emitError ls s).currentDir = s.currentDir ∧ (emitError ls s).issued = s.issued := by
  cases ls with
  | nil => exact processExit_fields 1 s
  | cons l ls => exact ⟨(logAll_fields (l :: ls) s).1, (logAll_fields (l :: ls) s).2.1⟩

/-- No callback touches the record of issued operations. -/
theorem deliver_issued (op : Op) (r : Reply) (s : State) :
    (deliver op r s).issued = s.issued := by
  unfold deliver
  split <;> (try split_ifs) <;>
    first
      | rfl
      | simp [(log_fields _ _).2.1, (logAll_fields _ _).2.1, (emitError_fields _ _).2,
          printCurrentDirectory, setDir_issued]

/-- Only the callback of `fs.stat` assigns `currentDir`. -/
theorem deliver_currentDir (op : Op) (r : Reply) (s : State) (h : ∀ p, op ≠ Op.stat p) :
    (deliver op r s).currentDir = s.currentDir := by
  unfold deliver
  split <;> (try split_ifs) <;>
    first
      | exact absurd rfl (h _)
      | rfl
      | simp [(log_fields _ _).1, (logAll_fields _ _).1, (emitError_fields _ _).1]

theorem log_dead (m : String) (s : State) (c : Nat) (h : s.exited = some c) : log m s = s := by
  simp [log, h]

theorem logAll_dead (ms : List String) (s : State) (c : Nat) (h : s.exited = some c) :
    logAll ms s = s := by
  induction ms with
  | nil => simp [logAll]
  | cons m ms ih =>
    simp only [logAll, List.foldl_cons] at ih ⊢
    rw [log_dead m s c h]
    exact ih

theorem processExit_dead (k : Nat) (s : State) (c : Nat) (h : s.exited = some c) :
    processExit k s = s := by
  simp [processExit, h]

theorem setDir_dead (p : String) (s : State) (c : Nat) (h : s.exited = some c) :
    setDir p s = s := by
  simp [setDir, h]

theorem emitError_dead (ls : List String) (s : State) (c : Nat) (h : s.exited = some c) :
    emitError ls s = s := by
  cases ls with
  | nil => exact processExit_dead 1 s c h
  | cons l ls => exact logAll_dead (l :: ls) s c h

/-- No callback runs once the process has exited. -/
theorem deliver_dead (op : Op) (r : Reply) (s : State) (c : Nat) (h : s.exited = some c) :
    deliver op r s = s := by
  unfold deliver
  split <;> (try split_ifs) <;>
    first
      | rfl
      | exact log_dead _ s c h
      | exact logAll_dead _ s c h
      | exact emitError_dead _ s c h
      | simp [printCurrentDirectory, setDir_dead _ s c h, log_dead _ s c h]

/-- An exited process takes no further turn. -/
theorem step_dead (env : Env) (s : State) (e : Event) (c : Nat) (h : s.exited = some c) :
    step env s e = s := by
  obtain ⟨d, ex, o, i⟩ := s
  simp only at h; subst h
  cases e with
  | line l => exact handleLine_dead env l d c o i
  | close => simp [step, onClose, log, processExit]
  | sigint => simp [step, onSigint, log, processExit]
  | reply k r =>
    simp only [step]
    split
    · exact deliver_dead _ r _ c rfl
    · rfl

theorem run_dead (env : Env) (s : State) (evs : List Event) (c : Nat) (h : s.exited = some c) :
    run env s evs = s := by
  induction evs with
  | nil => rfl
  | cons e es ih =>
    simp only [run, List.foldl_cons] at ih ⊢
    rw [step_dead env s e c h]
    exact ih

/-- A turn only ever appends to the record of issued operations. -/
theorem step_issued_grows (env : Env) (s : State) (e : Event) :
    s.issued <+: (step env s e).issued := by
  cases hex : s.exited with
  | some c => rw [step_dead env s e c hex]
  | none =>
    cases e with
    | line l =>
      simp only [step]
      rw [handleLine_issued env l s hex]
      exact List.prefix_append _ _
    | close =>
      simp only [step, onClose]
      rw [(processExit_fields _ _).2, (log_fields _ _).2.1]
    | sigint =>
      simp only [step, onSigint]
      rw [(processExit_fields _ _).2, (log_fields _ _).2.1]
    | reply k r =>
      simp only [step]
      split
      · rw [deliver_issued]
      · exact List.prefix_refl _

theorem run_issued_grows (env : Env) (s : State) (evs : List Event) :
    s.issued <+: (run env s evs).issued := by
  induction evs generalizing s with
  | nil => exact List.prefix_refl _
  | cons e es ih =>
    simp only [run, List.foldl_cons]
    exact (step_issued_grows env s e).trans (ih (step env s e))

theorem started_handleLine (env : Env) (line : String) (s : State) (h : s.exited = none) :
    started s (handleLine env line s) = startedOps env s.currentDir (split ' ' (trim line)) := by
  simp [started, handleLine_issued env line s h]

theorem startedOps_ne_stat (env : Env) (d : String) (toks : List String)
    (hcd : toks[0]? = some "cd" → truthy toks[1]? = false) (op : Op)
    (hop : op ∈ startedOps env d toks) (p : String) : op ≠ Op.stat p := by
  intro heq
  subst heq
  unfold startedOps at hop
  rcases command_cases toks[0]? with
    c | c | c | c | c | c | c | c | c | c | c | c
  · simp [c, hcd c] at hop
  all_goals simp [c] at hop

/-- The bare line `up` runs `goUp` in two listeners, whatever the directory. -/
theorem up_line_runs_goUp_twice (env : Env) (line : String) (s : State) (h : s.exited = none)
    (ht : trim line = "up") :
    (handleLine env line s).currentDir = parentOrSelf env (parentOrSelf env s.currentDir) := by
  obtain ⟨d, ex, o, i⟩ := s
  simp only at h; subst h
  simp [handleLine, ht, split_up]

/-- Whenever a line does not end the process, at least four listeners log
`Invalid input`. -/
theorem invalid_input_at_least_four (env : Env) (line : String) (s : State)
    (h : s.exited = none) (hc : (split ' ' (trim line))[0]? ≠ some ".exit") :
    4 ≤ invalidCount (printed s (handleLine env line s)) := by
  obtain ⟨d, ex, o, i⟩ := s
  simp only at h; subst h
  simp only [handleLine]
  by_cases h1 : trim line = "up"
  · simp [h1, split_up, printed_append, invalidCount, List.count_cons]
    omega
  by_cases h2 : trim line = ".exit"
  · rw [h2, split_dotExit] at hc
    exact absurd rfl hc
  by_cases h3 : trim line = "os-info"
  · simp [h3, split_osInfo, printed_append, invalidCount, List.count_cons]
    omega
  rcases command_cases (split ' ' (trim line))[0]? with
    c | c | c | c | c | c | c | c | c | c | c | c <;>
  first
    | exact absurd c hc
    | (simp [h1, h2, h3, c, printed_append, invalidCount, List.count_cons]; done)
    | (simp [h1, h2, h3, c, printed_append, invalidCount, List.count_cons]; omega)
    | (simp [h1, h2, h3, c, printed_append, invalidCount, List.count_cons]
       split_ifs <;> simp [h1, h2, h3, c, printed_append, invalidCount, List.count_cons])

/-! ## The claims -/

/-- Claim C1, failing case: started in `/home/alice`, whose parent is `/home`, the single
line `up` is matched by the first and by the second listener, `goUp` runs twice, and the
working directory ends at `/` instead of `/home`. -/
theorem C1_up_ascends_two_levels :
    posixDirname "/home/alice" = "/home" ∧
      (step (posixEnv "User") (start "/home/alice") (Event.line "up")).currentDir = "/" ∧
      printed (start "/home/alice")
          (step (posixEnv "User") (start "/home/alice") (Event.line "up"))
        = [Out.log "You are currently in /home", Out.prompt,
            Out.log "You are currently in /", Out.prompt,
            Out.log "Invalid input", Out.prompt, Out.log "Invalid input", Out.prompt,
            Out.log "Invalid input", Out.prompt, Out.log "Invalid input", Out.prompt] := by
  decide

/-- Claim C2, failing case: with a directory `b` and a regular file `a`, the `readdir`
callback sorts the concatenation of both groups, so the file `a` is printed before the
directory `b`, whereas sorting the groups separately would give `b` then `a`. -/
theorem C2_file_listed_before_directory :
    listing [⟨"b", Kind.directory⟩, ⟨"a", Kind.file⟩] = ["a", "b"] ∧
      jsSort ["b"] ++ jsSort ["a"] = ["b", "a"] ∧
      printed (start "/home/alice")
          (deliver (Op.readdir "/home/alice")
            (Reply.readdir (some [⟨"b", Kind.directory⟩, ⟨"a", Kind.file⟩]))
            (start "/home/alice"))
        = [Out.log "a", Out.log "b"] := by
  decide

/-- Claim C3, failing cases: the valid line `ls` makes five listeners log `Invalid input`,
and an unknown command, or `cd` without an argument, makes all six log it. -/
theorem C3_invalid_input_repeated :
    invalidCount (printed (start "/home/alice")
        (step (posixEnv "User") (start "/home/alice") (Event.line "ls"))) = 5 ∧
      started (start "/home/alice")
          (step (posixEnv "User") (start "/home/alice") (Event.line "ls"))
        = [Op.readdir "/home/alice"] ∧
      invalidCount (printed (start "/home/alice")
        (step (posixEnv "User") (start "/home/alice") (Event.line "frobnicate"))) = 6 ∧
      invalidCount (printed (start "/home/alice")
        (step (posixEnv "User") (start "/home/alice") (Event.line "cd"))) = 6 := by
  decide

/-- Claim C4, failing case: `decompress a.gz a.txt` registers `error` listeners on the read
and write streams only. When the gunzip transform emits `error` (malformed input), no
listener catches it: nothing is logged and the process ends with status 1. The same holds
for the gzip transform of `compress`. -/
theorem C4_transform_error_uncaught :
    (step (posixEnv "User") (start "/home/alice") (Event.line "decompress a.gz a.txt")).issued
        = [Op.decompress "/home/alice/a.gz" "/home/alice/a.txt" "a.gz" "a.txt"] ∧
      errorListeners (Op.decompress "/home/alice/a.gz" "/home/alice/a.txt" "a.gz" "a.txt")
        Stage.transform = [] ∧
      (step (posixEnv "User")
        (step (posixEnv "User") (start "/home/alice") (Event.line "decompress a.gz a.txt"))
        (Event.reply 0 (Reply.error Stage.transform))).exited = some 1 ∧
      printed (step (posixEnv "User") (start "/home/alice") (Event.line "decompress a.gz a.txt"))
        (step (posixEnv "User")
          (step (posixEnv "User") (start "/home/alice") (Event.line "decompress a.gz a.txt"))
          (Event.reply 0 (Reply.error Stage.transform))) = [] ∧
      (step (posixEnv "User")
        (step (posixEnv "User") (start "/home/alice") (Event.line "compress a.txt a.gz"))
        (Event.reply 0 (Reply.error Stage.transform))).exited = some 1 ∧
      printed (step (posixEnv "User") (start "/home/alice") (Event.line "decompress a.gz a.txt"))
        (step (posixEnv "User")
          (step (posixEnv "User") (start "/home/alice") (Event.line "decompress a.gz a.txt"))
          (Event.reply 0 (Reply.error Stage.readStream))) = [Out.log "Operation failed"] := by
  decide

/-- Claim C7: a line whose command is neither `up` nor a `cd` with an argument leaves the
working directory as it was, both when the six listeners have run and after any replies to
the operations this line started have been delivered. -/
theorem C7_other_lines_keep_dir (env : Env) (s : State) (line : String)
    (hup : (split ' ' (trim line))[0]? ≠ some "up")
    (hcd : (split ' ' (trim line))[0]? = some "cd" → truthy (split ' ' (trim line))[1]? = false) :
    (step env s (Event.line line)).currentDir = s.currentDir ∧
      ∀ rs : List (Nat × Reply), (∀ p ∈ rs, s.issued.length ≤ p.1) →
        (run env (step env s (Event.line line))
          (rs.map (fun p => Event.reply p.1 p.2))).currentDir = s.currentDir := by
  have hdir : (step env s (Event.line line)).currentDir = s.currentDir :=
    handleLine_currentDir env line s hup
  refine ⟨hdir, fun rs hrs => ?_⟩
  have hops : ∀ k op, s.issued.length ≤ k → (step env s (Event.line line)).issued[k]? = some op →
      ∀ p, op ≠ Op.stat p := by
    intro k op hk hget
    simp only [step] at hget
    cases hex : s.exited with
    | some c =>
      obtain ⟨d, ex, o, i⟩ := s
      simp only at hex; subst hex
      rw [handleLine_dead] at hget
      simp only at hget hk
      rw [List.getElem?_eq_none hk] at hget
      exact absurd hget (by simp)
    | none =>
      rw [handleLine_issued env line s hex] at hget
      rw [List.getElem?_append_right hk] at hget
      exact startedOps_ne_stat env s.currentDir _ hcd op (List.getElem?_mem hget)
  suffices key : ∀ (t : State), t.issued = (step env s (Event.line line)).issued →
      t.currentDir = s.currentDir →
      (run env t (rs.map (fun p => Event.reply p.1 p.2))).currentDir = s.currentDir from
    key _ rfl hdir
  induction rs with
  | nil => intro t _ ht; exact ht
  | cons p ps ih =>
    intro t hti htd
    simp only [List.map_cons, run, List.foldl_cons]
    have hp : s.issued.length ≤ p.1 := hrs p (List.mem_cons_self _ _)
    apply ih (fun q hq => hrs q (List.mem_cons_of_mem _ hq))
    · simp only [step]
      split
      · rw [deliver_issued]; exact hti
      · exact hti
    · simp only [step]
      split
      · rename_i op hget
        rw [hti] at hget
        rw [deliver_currentDir _ _ _ (hops _ _ hp hget)]
        exact htd
      · exact htd

theorem C7_other_lines_keep_dir_witness :
    (split ' ' (trim "rm a.txt"))[0]? ≠ some "up" ∧
      ((split ' ' (trim "rm a.txt"))[0]? = some "cd" →
        truthy (split ' ' (trim "rm a.txt"))[1]? = false) ∧
      (step (posixEnv "User") (start "/home/alice") (Event.line "rm a.txt")).currentDir
        = "/home/alice" ∧
      (run (posixEnv "User") (step (posixEnv "User") (start "/home/alice") (Event.line "rm a.txt"))
        [Event.reply 0 (Reply.done false)]).currentDir = "/home/alice" := by
  have h := C7_other_lines_keep_dir (posixEnv "User") (start "/home/alice") "rm a.txt"
    (by decide) (by decide)
  exact ⟨by decide, by decide, h.1, h.2 [(0, Reply.done false)] (by simp [start])⟩

/-- Claim C8: the three ways out of the interactive state (a line whose command is `.exit`,
the end of input closing the readline interface, and the interrupt signal) each end the
process with status 0 after logging the farewell, which carries the display name, exactly
once and as the last output; no other line ends the process, and nothing runs afterwards. -/
theorem C8_farewell_once_then_exit (env : Env) (s : State) (e : Event) (h : s.exited = none)
    (he : ∀ k r, e ≠ Event.reply k r) :
    ((e = Event.close ∨ e = Event.sigint ∨
        ∃ l, e = Event.line l ∧ (split ' ' (trim l))[0]? = some ".exit") →
      (step env s e).exited ≠ none) ∧
    ((step env s e).exited ≠ none →
      (step env s e).exited = some 0 ∧
      (∃ pre msg, printed s (step env s e) = pre ++ [Out.log msg] ∧
        (msg = "Thank you for using File Manager, " ++ env.username ++ ", goodbye!" ∨
          msg = "\nThank you for using File Manager, " ++ env.username ++ ", goodbye!") ∧
        Out.log (closeMessage env) ∉ pre ∧ Out.log (sigintMessage env) ∉ pre) ∧
      ∀ evs, run env (step env s e) evs = step env s e) := by
  obtain ⟨d, ex, o, i⟩ := s
  simp only at h; subst h
  cases e with
  | reply k r => exact absurd rfl (he k r)
  | close =>
    rw [show step env ⟨d, none, o, i⟩ Event.close = onClose env ⟨d, none, o, i⟩ from rfl,
      onClose_alive]
    refine ⟨fun _ => by simp, fun _ => ⟨rfl, ⟨[], closeMessage env, ?_, Or.inl rfl, ?_, ?_⟩, ?_⟩⟩
    · simp [printed_append]
    · simp
    · simp
    · intro evs
      exact run_dead env _ evs 0 rfl
  | sigint =>
    rw [show step env ⟨d, none, o, i⟩ Event.sigint = onSigint env ⟨d, none, o, i⟩ from rfl,
      onSigint_alive]
    refine ⟨fun _ => by simp, fun _ => ⟨rfl, ⟨[], sigintMessage env, ?_, Or.inr rfl, ?_, ?_⟩, ?_⟩⟩
    · simp [printed_append]
    · simp
    · simp
    · intro evs
      exact run_dead env _ evs 0 rfl
  | line l =>
    simp only [step]
    have hex := handleLine_exited env l ⟨d, none, o, i⟩ rfl
    constructor
    · rintro (h1 | h1 | ⟨l2, h1, h2⟩)
      · cases h1
      · cases h1
      · cases h1
        rw [hex, if_pos h2]
        simp
    · intro hne
      by_cases hc : (split ' ' (trim l))[0]? = some ".exit"
      · rw [if_pos hc] at hex
        refine ⟨hex, ⟨_, closeMessage env, handleLine_printed_exit env l _ rfl hc, Or.inl rfl,
          ?_, ?_⟩, fun evs => run_dead env _ evs 0 hex⟩
        · split_ifs <;> simp [closeMessage_ne_invalid env]
        · split_ifs <;> simp [sigintMessage_ne_invalid env]
      · rw [if_neg hc] at hex
        exact absurd hex hne

theorem C8_farewell_once_then_exit_witness :
    (start "/home/alice").exited = none ∧
      (step (posixEnv "Ann") (start "/home/alice") (Event.line ".exit")).exited = some 0 ∧
      printed (start "/home/alice")
          (step (posixEnv "Ann") (start "/home/alice") (Event.line ".exit"))
        = [Out.log "Thank you for using File Manager, Ann, goodbye!"] := by
  have h := C8_farewell_once_then_exit (posixEnv "Ann") (start "/home/alice")
    (Event.line ".exit") rfl (fun _ _ => by simp)
  exact ⟨rfl, (h.2 (h.1 (Or.inr (Or.inr ⟨".exit", rfl, by decide⟩)))).1, by decide⟩

/-- Claim C9: every path-taking command resolves its path arguments against the working
directory of the moment its line is dispatched. The operations a line starts are those of
the flat table `startedOps` at the directory held when the line arrives, and whatever
happens later (further lines such as `cd` or `up`, replies, signals) leaves these
operations, with their absolute paths, in place. -/
theorem C9_paths_resolved_at_dispatch (env : Env) (s : State) (line : String)
    (h : s.exited = none) :
    started s (step env s (Event.line line))
        = startedOps env s.currentDir (split ' ' (trim line)) ∧
      ∀ evs : List Event,
        (s.issued ++ startedOps env s.currentDir (split ' ' (trim line)))
          <+: (run env (step env s (Event.line line)) evs).issued := by
  refine ⟨started_handleLine env line s h, fun evs => ?_⟩
  have h2 := run_issued_grows env (step env s (Event.line line)) evs
  simp only [step] at h2 ⊢
  rw [handleLine_issued env line s h] at h2
  exact h2

theorem C9_paths_resolved_at_dispatch_witness :
    (start "/home/alice").exited = none ∧
      started (start "/home/alice")
          (step (posixEnv "User") (start "/home/alice") (Event.line "copy a.txt ../b.txt"))
        = [Op.copy "/home/alice/a.txt" "/home/b.txt" "a.txt" "../b.txt"] ∧
      [Op.copy "/home/alice/a.txt" "/home/b.txt" "a.txt" "../b.txt"]
        <+: (run (posixEnv "User")
              (step (posixEnv "User") (start "/home/alice") (Event.line "copy a.txt ../b.txt"))
              [Event.line "up", Event.line "hash c"]).issued := by
  have h := C9_paths_resolved_at_dispatch (posixEnv "User") (start "/home/alice")
    "copy a.txt ../b.txt" rfl
  have e : startedOps (posixEnv "User") (start "/home/alice").currentDir
      (split ' ' (trim "copy a.txt ../b.txt"))
      = [Op.copy "/home/alice/a.txt" "/home/b.txt" "a.txt" "../b.txt"] := by decide
  rw [e] at h
  exact ⟨rfl, h.1, h.2 [Event.line "up", Event.line "hash c"]⟩

/-- Claim C10, failing case: for the argument `--username=a=b` the value after the prefix
is `a=b`, but the program takes the second piece of the split at every `=`, which is `a`. -/
theorem C10_username_cut_at_second_equals :
    username ["node", "index.js", "--username=a=b"] = "a" ∧
      startsWith "--username=a=b" "--username=" = true ∧
      split '=' "--username=a=b" = ["--username", "a", "b"] ∧
      username ["node", "index.js"] = "User" ∧
      username ["node", "index.js", "--username=Ann"] = "Ann" := by
  decide

end FileManager
